import Mathlib

/-!
Verification development for the Robolabs language-school chatbot
(`app.py` + `storage.py`).

The development shallowly embeds the program:

* `storage.py` — the SQLite table `leads` becomes a list of `StoredRow`
  (a `Lead` plus its `created_at` timestamp); `upsert_lead`, `count_leads`
  and `get_lead` are translated from the SQL they execute
  (`INSERT ... ON CONFLICT(tg_id) DO UPDATE`, `SELECT COUNT(*)`,
  `SELECT ... WHERE tg_id=?`).
* `app.py` — the per-user aiogram FSM state and data accumulator become
  `Session`, the module-level `MEM` map becomes a function
  `Int → List (String × String)`, and each decorated handler becomes a
  function on the whole bot state.  The aiogram dispatcher tries handlers
  in registration (decoration) order; `dispatchText` reproduces that order
  with the handlers' filters.
* the external Gemini call is an oracle parameter
  (`Except Unit (Option String)`): an `Except.error` is an exception
  raised by the SDK call, `Except.ok t` a response whose `.text` is `t`.
-/

namespace Robolabs

/-! ## storage.py -/

/-- The dataclass `Lead` of `storage.py`. -/
structure Lead where
  tg_id : Int
  name : String
  age_group : String
  level : String
  goal : String
  schedule : String
  contact : String
deriving DecidableEq, Repr

/-- One row of the `leads` table: the seven lead columns plus the
`created_at DATETIME DEFAULT CURRENT_TIMESTAMP` column. -/
structure StoredRow where
  lead : Lead
  created_at : Nat
deriving DecidableEq, Repr

/-- The `leads` table.  `tg_id INTEGER PRIMARY KEY`; the key invariant is
stated separately as `KeysNodup`. -/
abbrev Db := List StoredRow

/-- `CREATE TABLE IF NOT EXISTS` on a fresh database file: the empty table. -/
def init_db : Db := []

/-- `upsert_lead` of `storage.py`:
`INSERT INTO leads (tg_id, name, age_group, level, goal, schedule, contact)
VALUES (...) ON CONFLICT(tg_id) DO UPDATE SET name=excluded.name, ...`.
On conflict every column except `tg_id` and `created_at` is replaced; with
no conflicting row, a fresh row is inserted with `created_at` defaulted to
the current time `now`. -/
def upsert_lead (lead : Lead) (now : Nat) : Db → Db
  | [] => [⟨lead, now⟩]
  | r :: rs =>
      if r.lead.tg_id = lead.tg_id then ⟨lead, r.created_at⟩ :: rs
      else r :: upsert_lead lead now rs

/-- `count_leads` of `storage.py`: `SELECT COUNT(*) FROM leads`. -/
def count_leads (db : Db) : Nat := db.length

/-- The row lookup underlying `get_lead`:
`SELECT ... FROM leads WHERE tg_id=?` (at most one row by primary key). -/
def findRow (tg_id : Int) (db : Db) : Option StoredRow :=
  db.find? (fun r => r.lead.tg_id = tg_id)

/-- `get_lead` of `storage.py`: the selected columns of the matching row,
or `None` when `fetchone` returns no row. -/
def get_lead (tg_id : Int) (db : Db) : Option Lead :=
  (findRow tg_id db).map (·.lead)

/-- The primary-key invariant of the `leads` table: the `tg_id` column
holds no duplicates. -/
def KeysNodup (db : Db) : Prop := (db.map (·.lead.tg_id)).Nodup

instance (db : Db) : Decidable (KeysNodup db) := by
  unfold KeysNodup
  infer_instance

/-! ## app.py — configuration, conversation memory, Gemini wrapper -/

/-- Python's `str.strip()`: the string with leading and trailing
whitespace removed.  (Defined over the underlying character list, rather
than through `String.trim`, so that it evaluates by kernel reduction;
the two agree on ASCII whitespace.) -/
def strip (s : String) : String :=
  ⟨((s.data.dropWhile Char.isWhitespace).reverse.dropWhile
      Char.isWhitespace).reverse⟩

/-- The environment-derived module constants of `app.py` that the handlers
read: `ADMIN_ID`, whether `GEMINI_API_KEY` is non-empty (so
`gemini_client` is not `None`), `SCHOOL_NAME`, `TIMEZONE`. -/
structure Env where
  ADMIN_ID : Int
  geminiConfigured : Bool
  SCHOOL_NAME : String
  TIMEZONE : String

/-- The module-level map `MEM: Dict[int, List[Tuple[str, str]]]`, absent
keys reading as the empty list (`MEM.setdefault(user_id, [])`). -/
abbrev Mem := Int → List (String × String)

/-- `MEM_MAX = 10`. -/
def MEM_MAX : Nat := 10

/-- `mem_add` of `app.py`: append `(role, text)` to the user's list and,
when its length exceeds `MEM_MAX`, keep only the last `MEM_MAX` entries
(`MEM[user_id][-MEM_MAX:]`). -/
def mem_add (mem : Mem) (user_id : Int) (role text : String) : Mem :=
  fun u =>
    if u = user_id then
      let l := mem user_id ++ [(role, text)]
      if MEM_MAX < l.length then l.drop (l.length - MEM_MAX) else l
    else mem u

/-- `mem_pack` of `app.py`: the `ROLE: text` lines joined by newlines. -/
def mem_pack (mem : Mem) (user_id : Int) : String :=
  strip (String.intercalate "\n"
    ((mem user_id).map (fun p => String.mk (p.1.data.map Char.toUpper) ++ ": " ++ p.2)))

/-- Outcome of the external `generate_content` call executed inside
`ask_gemini`: `Except.error` is an exception raised by the SDK,
`Except.ok t` a response whose `.text` attribute is `t` (`none` models a
`None` text). -/
abbrev GeminiOutcome := Except Unit (Option String)

/-- The fixed reply of `ask_gemini` when `gemini_client` is `None`. -/
def geminiNotConfigured : String :=
  "ИИ сейчас не подключён (нет GEMINI_API_KEY). Но я могу помочь кнопками меню 🙂"

/-- The fixed reply of `ask_gemini` when the external call raises. -/
def geminiApology : String :=
  "Упс, сейчас не получилось ответить через ИИ. Попробуй ещё раз через минуту 🙂"

/-- The prompt `ask_gemini` builds from the system prompt, the packed
memory and the new user text. -/
def gemini_prompt (agentPrompt history user_text : String) : String :=
  "SYSTEM:\n" ++ agentPrompt ++ "\n\nCONTEXT (short chat history):\n" ++
    history ++ "\n\nUSER:\n" ++ user_text ++ "\n"

/-- `ask_gemini` of `app.py`, as a function of whether a credential is
configured and of the external call's outcome.  Returns the reply string
together with whether the external call was attempted.  The `try/except`
around `asyncio.to_thread(_call)` means the function is total: every
outcome yields a string, never a propagated exception. -/
def ask_gemini (configured : Bool) (outcome : GeminiOutcome) : String × Bool :=
  if configured = false then (geminiNotConfigured, false)
  else
    match outcome with
    | Except.ok t => (strip (t.getD ""), true)
    | Except.error _ => (geminiApology, true)

/-! ## app.py — FSM states, sessions, bot state -/

/-- The aiogram FSM states: the six `Intake` states
(`name`, `age_group`, `level`, `goal`, `schedule`, `contact`) and
`AIChat.question`. -/
inductive FsmState
  | name
  | age_group
  | level
  | goal
  | schedule
  | contact
  | question
deriving DecidableEq, Repr

/-- The per-user FSM data accumulator (`state.update_data` /
`state.get_data`): the keys the intake handlers may have set.  `none`
models an absent key, read back through `data.get(key, "")`. -/
structure SessionData where
  name : Option String := none
  age_group : Option String := none
  level : Option String := none
  goal : Option String := none
  schedule : Option String := none
deriving DecidableEq, Repr

/-- One user's `FSMContext`: current state (`none` = no active state) and
the data accumulator.  `state.clear()` resets both. -/
structure Session where
  state : Option FsmState := none
  data : SessionData := {}
deriving DecidableEq, Repr

/-- A reply sent with `m.answer` or `bot.send_message`:
(recipient identity, text). -/
abbrev Reply := Int × String

/-- The whole mutable state of the bot process: per-user sessions, the
conversation-memory map `MEM`, and the `leads` table. -/
structure BotState where
  sessions : Int → Session
  mem : Mem
  db : Db

/-- The state at process start: no sessions, empty `MEM`, fresh database. -/
def BotState.init : BotState := ⟨fun _ => {}, fun _ => [], init_db⟩

/-- Replace one user's session, leaving every other user untouched. -/
def setSession (s : BotState) (uid : Int) (sess : Session) : BotState :=
  { s with sessions := fun u => if u = uid then sess else s.sessions u }

/-- An incoming Telegram message: sender identity (`m.from_user.id`) and
text payload (`none` for a non-text message such as a sticker). -/
structure Msg where
  from_id : Int
  text : Option String

/-! ## app.py — handler bodies

Each decorated handler of `app.py` becomes a function
`BotState → ... → BotState × List Reply`, translated line by line. -/

/-- Text of `m.answer` in `start`. -/
def startReply (school : String) : String :=
  "Привет! Я ИИ-ассистент школы **" ++ school ++ "** 🙂\n" ++
  "Помогу выбрать курс и записаться на пробный урок.\n\n" ++
  "Выбери кнопку ниже 👇"

/-- Handler `start` (`CommandStart()`): clear the session, record
`"/start"` in memory, greet. -/
def start (env : Env) (s : BotState) (uid : Int) : BotState × List Reply :=
  let s := setSession s uid {}
  let s := { s with mem := mem_add s.mem uid "user" "/start" }
  (s, [(uid, startReply env.SCHOOL_NAME)])

/-- Menu button text handled by `trial`. -/
def btnTrial : String := "📌 Записаться на пробный урок"

/-- Menu button text handled by `pick_course`. -/
def btnPickCourse : String := "📚 Подобрать курс"

/-- Menu button text handled by `pricing`. -/
def btnPricing : String := "💰 Цена и пакеты"

/-- Menu button text handled by `level_test`. -/
def btnLevelTest : String := "🧪 Определить уровень"

/-- Menu button text handled by `ai_mode`. -/
def btnAiMode : String := "💬 Вопрос ИИ"

/-- Handler `trial`: enter the intake flow at `Intake.name`. -/
def trial (s : BotState) (uid : Int) (text : String) : BotState × List Reply :=
  let s := { s with mem := mem_add s.mem uid "user" text }
  let s := setSession s uid { s.sessions uid with state := some FsmState.name }
  (s, [(uid, "Супер. Как тебя зовут?")])

/-- Handler `pick_course`: jump straight to `Intake.goal`
(`state.set_state` does not touch the data accumulator). -/
def pick_course (s : BotState) (uid : Int) (text : String) : BotState × List Reply :=
  let s := { s with mem := mem_add s.mem uid "user" text }
  let s := setSession s uid { s.sessions uid with state := some FsmState.goal }
  (s, [(uid, "Для чего английский? (разговорный / работа / IELTS / переезд / универ)")])

/-- Text of `m.answer` in `pricing`. -/
def pricingReply : String :=
  "💰 Пример (замени на ваши реальные):\n" ++
  "• Пробный урок: 30–45 минут\n" ++
  "• Индивидуально: 2–3 раза в неделю\n" ++
  "• Группа: 6–10 человек\n\n" ++
  "Хочешь — подберу вариант под цель. Нажми «📚 Подобрать курс»."

/-- Handler `pricing`: canned text, no state change. -/
def pricing (s : BotState) (uid : Int) (text : String) : BotState × List Reply :=
  let s := { s with mem := mem_add s.mem uid "user" text }
  (s, [(uid, pricingReply)])

/-- Text of `m.answer` in `level_test`. -/
def levelTestReply : String :=
  "Быстрая оценка уровня:\n" ++
  "1) Сколько лет учишь английский?\n" ++
  "2) Смотришь ли видео без субтитров?\n" ++
  "3) Что сложнее: говорить или понимать?\n\n" ++
  "Ответь 2–3 предложениями — и я скажу примерный уровень (A1–C1)."

/-- Handler `level_test`: canned text, no state change. -/
def level_test (s : BotState) (uid : Int) (text : String) : BotState × List Reply :=
  let s := { s with mem := mem_add s.mem uid "user" text }
  (s, [(uid, levelTestReply)])

/-- Handler `ai_mode`: enter `AIChat.question`. -/
def ai_mode (s : BotState) (uid : Int) (text : String) : BotState × List Reply :=
  let s := { s with mem := mem_add s.mem uid "user" text }
  let s := setSession s uid { s.sessions uid with state := some FsmState.question }
  (s, [(uid, "Ок! Задай вопрос про обучение/уровень/курс/IELTS — отвечу 🙂")])

/-- Handler `intake_name` (`Intake.name, F.text`): store the trimmed text
as `name`, advance to `Intake.age_group`. -/
def intake_name (s : BotState) (uid : Int) (text : String) : BotState × List Reply :=
  let s := { s with mem := mem_add s.mem uid "user" text }
  let sess := s.sessions uid
  let s := setSession s uid
    { sess with data := { sess.data with name := some (strip text) },
                state := some FsmState.age_group }
  (s, [(uid, "Кто будет заниматься?")])

/-- Handler `intake_age` (`Intake.age_group, F.text`). -/
def intake_age (s : BotState) (uid : Int) (text : String) : BotState × List Reply :=
  let s := { s with mem := mem_add s.mem uid "user" text }
  let sess := s.sessions uid
  let s := setSession s uid
    { sess with data := { sess.data with age_group := some (strip text) },
                state := some FsmState.level }
  (s, [(uid, "Какой сейчас уровень? (если не знаешь — напиши «не знаю»)")])

/-- Handler `intake_level` (`Intake.level, F.text`). -/
def intake_level (s : BotState) (uid : Int) (text : String) : BotState × List Reply :=
  let s := { s with mem := mem_add s.mem uid "user" text }
  let sess := s.sessions uid
  let s := setSession s uid
    { sess with data := { sess.data with level := some (strip text) },
                state := some FsmState.goal }
  (s, [(uid, "Какая цель? (разговорный/IELTS/работа/переезд и т.д.)")])

/-- Text of `m.answer` in `intake_goal`. -/
def scheduleAsk (timezone : String) : String :=
  "Когда удобно заниматься? (дни/время) + часовой пояс.\n" ++
  "Если ты в Казахстане, обычно " ++ timezone ++ "."

/-- Handler `intake_goal` (`Intake.goal, F.text`). -/
def intake_goal (env : Env) (s : BotState) (uid : Int) (text : String) :
    BotState × List Reply :=
  let s := { s with mem := mem_add s.mem uid "user" text }
  let sess := s.sessions uid
  let s := setSession s uid
    { sess with data := { sess.data with goal := some (strip text) },
                state := some FsmState.schedule }
  (s, [(uid, scheduleAsk env.TIMEZONE)])

/-- Handler `intake_schedule` (`Intake.schedule, F.text`). -/
def intake_schedule (s : BotState) (uid : Int) (text : String) : BotState × List Reply :=
  let s := { s with mem := mem_add s.mem uid "user" text }
  let sess := s.sessions uid
  let s := setSession s uid
    { sess with data := { sess.data with schedule := some (strip text) },
                state := some FsmState.contact }
  (s, [(uid, "Оставь контакт для связи (ник/телефон) или напиши «без контакта».\n" ++
             "⚠️ Пиши только то, что готов(а) сообщить.")])

/-- Text of the success `m.answer` in `intake_contact`. -/
def doneReply : String :=
  "✅ Готово! Заявка сохранена.\n\n" ++
  "Чтобы подтвердить пробный урок — напиши 2–3 удобных времени.\n" ++
  "Или задай вопрос через «💬 Вопрос ИИ»."

/-- The admin notification text built in `intake_contact`. -/
def adminNotify (lead : Lead) : String :=
  "📥 НОВЫЙ ЛИД:\n" ++
  "tg_id: " ++ toString lead.tg_id ++ "\n" ++
  "name: " ++ lead.name ++ "\n" ++
  "age: " ++ lead.age_group ++ "\n" ++
  "level: " ++ lead.level ++ "\n" ++
  "goal: " ++ lead.goal ++ "\n" ++
  "schedule: " ++ lead.schedule ++ "\n" ++
  "contact: " ++ lead.contact

/-- Handler `intake_contact` (`Intake.contact, F.text`): build the `Lead`
from the accumulator (`data.get(key, "")`) and the trimmed final text,
upsert it, clear the session, answer the user and — when `ADMIN_ID` is
non-zero — attempt the admin notification. -/
def intake_contact (env : Env) (now : Nat) (s : BotState) (uid : Int)
    (text : String) : BotState × List Reply :=
  let s := { s with mem := mem_add s.mem uid "user" text }
  let data := (s.sessions uid).data
  let lead : Lead :=
    { tg_id := uid
      name := data.name.getD ""
      age_group := data.age_group.getD ""
      level := data.level.getD ""
      goal := data.goal.getD ""
      schedule := data.schedule.getD ""
      contact := strip text }
  let s := { s with db := upsert_lead lead now s.db }
  let s := setSession s uid {}
  (s, (uid, doneReply) ::
      (if env.ADMIN_ID ≠ 0 then [(env.ADMIN_ID, adminNotify lead)] else []))

/-- The fixed substitute reply in `ai_answer` when the generated answer is
empty. -/
def emptyAnswerReply : String :=
  "Я не смог(ла) сформулировать ответ. Спроси иначе или нажми «📚 Подобрать курс»."

/-- Handler `ai_answer` (`AIChat.question, F.text`): trim the text, record
it, ask Gemini, substitute a fixed text for an empty answer, record and
send the answer. -/
def ai_answer (env : Env) (outcome : GeminiOutcome) (s : BotState) (uid : Int)
    (text : String) : BotState × List Reply :=
  let user_text := strip text
  let s := { s with mem := mem_add s.mem uid "user" user_text }
  let answer := (ask_gemini env.geminiConfigured outcome).1
  let answer := if answer = "" then emptyAnswerReply else answer
  let s := { s with mem := mem_add s.mem uid "assistant" answer }
  (s, [(uid, answer)])

/-- Text of `m.answer` in `stats`. -/
def statsReply (n : Nat) : String := "📊 Лидов в базе: " ++ toString n

/-- Handler `stats` (`Command("stats")`): silently return for a non-admin
caller, otherwise answer with the lead count. -/
def stats (env : Env) (s : BotState) (uid : Int) : BotState × List Reply :=
  if uid ≠ env.ADMIN_ID then (s, [])
  else (s, [(uid, statsReply (count_leads s.db))])

/-- Text of `m.answer` in `reset_ai`. -/
def resetReply : String := "✅ AI memory очищена."

/-- Handler `reset_ai` (`Command("reset_ai")`): silently return for a
non-admin caller, otherwise `MEM.clear()` — the whole map, every user —
and confirm. -/
def reset_ai (env : Env) (s : BotState) (uid : Int) : BotState × List Reply :=
  if uid ≠ env.ADMIN_ID then (s, [])
  else ({ s with mem := fun _ => [] }, [(uid, resetReply)])

/-- Handler `fallback` (`F.text`): return silently when any FSM state is
active, otherwise record the trimmed text, ask Gemini (no empty-answer
guard here), record and send the answer. -/
def fallback (env : Env) (outcome : GeminiOutcome) (s : BotState) (uid : Int)
    (text : String) : BotState × List Reply :=
  if (s.sessions uid).state ≠ none then (s, [])
  else
    let user_text := strip text
    let s := { s with mem := mem_add s.mem uid "user" user_text }
    let answer := (ask_gemini env.geminiConfigured outcome).1
    let s := { s with mem := mem_add s.mem uid "assistant" answer }
    (s, [(uid, answer)])

/-! ## app.py — dispatch

aiogram tries the registered handlers in decoration order and runs the
first one whose filters all pass.  `Command`/`CommandStart` extract the
first whitespace-separated token of the text and strip an optional
`@botname` suffix; `F.text ==` is exact text equality; a bare `F.text`
filter passes iff the text is present and non-empty; a state filter
passes iff the user's current FSM state is that state. -/

/-- The command token of a text: first whitespace-separated token, with
any `@mention` suffix removed. -/
def commandToken (t : String) : String :=
  ⟨(t.data.takeWhile (fun c => c ≠ ' ')).takeWhile (fun c => c ≠ '@')⟩

/-- Whether the text invokes `/cmd` in the sense of aiogram's `Command`
filter. -/
def isCommand (cmd : String) (t : String) : Bool :=
  commandToken t = "/" ++ cmd

/-- The dispatcher for a text message: the decorated handlers of `app.py`
in their registration order, each guarded by its filters. -/
def dispatchText (env : Env) (outcome : GeminiOutcome) (now : Nat)
    (s : BotState) (uid : Int) (t : String) : BotState × List Reply :=
  if isCommand "start" t then start env s uid
  else if t = btnTrial then trial s uid t
  else if t = btnPickCourse then pick_course s uid t
  else if t = btnPricing then pricing s uid t
  else if t = btnLevelTest then level_test s uid t
  else if t = btnAiMode then ai_mode s uid t
  else if (s.sessions uid).state = some FsmState.name ∧ t ≠ "" then
    intake_name s uid t
  else if (s.sessions uid).state = some FsmState.age_group ∧ t ≠ "" then
    intake_age s uid t
  else if (s.sessions uid).state = some FsmState.level ∧ t ≠ "" then
    intake_level s uid t
  else if (s.sessions uid).state = some FsmState.goal ∧ t ≠ "" then
    intake_goal env s uid t
  else if (s.sessions uid).state = some FsmState.schedule ∧ t ≠ "" then
    intake_schedule s uid t
  else if (s.sessions uid).state = some FsmState.contact ∧ t ≠ "" then
    intake_contact env now s uid t
  else if (s.sessions uid).state = some FsmState.question ∧ t ≠ "" then
    ai_answer env outcome s uid t
  else if isCommand "stats" t then stats env s uid
  else if isCommand "reset_ai" t then reset_ai env s uid
  else if t ≠ "" then fallback env outcome s uid t
  else (s, [])

/-- Process one incoming message.  A message without text matches no
handler (every handler carries a text-requiring filter), so it leaves the
bot state unchanged and produces no reply. -/
def processMessage (env : Env) (outcome : GeminiOutcome) (now : Nat)
    (s : BotState) (m : Msg) : BotState × List Reply :=
  match m.text with
  | none => (s, [])
  | some t => dispatchText env outcome now s m.from_id t

/-- The bot state after one message (the replies discarded). -/
def step (env : Env) (outcome : GeminiOutcome) (now : Nat)
    (s : BotState) (m : Msg) : BotState :=
  (processMessage env outcome now s m).1

/-- A text that reaches the state-scoped handlers: non-empty (passes
`F.text`), not a `/start` command and not one of the five exact menu
button texts (so no earlier-registered handler captures it). -/
def PlainText (t : String) : Prop :=
  t ≠ "" ∧ isCommand "start" t = false ∧ t ≠ btnTrial ∧ t ≠ btnPickCourse ∧
    t ≠ btnPricing ∧ t ≠ btnLevelTest ∧ t ≠ btnAiMode

instance (t : String) : Decidable (PlainText t) := by
  unfold PlainText; infer_instance

/-- The handler registered for a given FSM state (the state-scoped
handlers of `app.py`). -/
def stateHandler (env : Env) (outcome : GeminiOutcome) (now : Nat)
    (s : BotState) (uid : Int) (t : String) : FsmState → BotState × List Reply
  | FsmState.name => intake_name s uid t
  | FsmState.age_group => intake_age s uid t
  | FsmState.level => intake_level s uid t
  | FsmState.goal => intake_goal env s uid t
  | FsmState.schedule => intake_schedule s uid t
  | FsmState.contact => intake_contact env now s uid t
  | FsmState.question => ai_answer env outcome s uid t

/-- The last `n` entries of a list (Python's `l[-n:]`). -/
def lastN (n : Nat) (l : List α) : List α := l.drop (l.length - n)

/-- A sequence of `mem_add` calls (caller identity, role, text), applied
in order. -/
def runAppends (mem : Mem) (ops : List (Int × String × String)) : Mem :=
  ops.foldl (fun m op => mem_add m op.1 op.2.1 op.2.2) mem

/-- The (role, text) turns submitted for one user, in order. -/
def userTurns (ops : List (Int × String × String)) (uid : Int) :
    List (String × String) :=
  (ops.filter (fun op => op.1 = uid)).map (fun op => op.2)

/-! ## Concrete fixtures for evaluating the model -/

/-- A concrete environment: admin identity 1, no Gemini credential. -/
def envA : Env := ⟨1, false, "English School", "Asia/Aqtobe"⟩

/-- A concrete external-call outcome: the SDK call raises. -/
def errO : GeminiOutcome := Except.error ()

/-- A bot state in which one user sits in a given session and everything
else is fresh. -/
def stateAt (uid : Int) (st : Option FsmState) (d : SessionData) : BotState :=
  ⟨fun u => if u = uid then ⟨st, d⟩ else {}, fun _ => [], []⟩

/-- A bot state with one remembered turn for user 3 and no active
sessions. -/
def memS : BotState :=
  ⟨fun _ => {}, fun u => if u = 3 then [("user", "hi")] else [], []⟩

/-- A bot state where the admin (identity 1) is mid-intake at `name` and
user 3 has one remembered turn. -/
def memSAdminBusy : BotState :=
  ⟨fun u => if u = 1 then ⟨some FsmState.name, {}⟩ else {},
   fun u => if u = 3 then [("user", "hi")] else [], []⟩

/-! ## Lemmas about the lead store -/

theorem get_lead_upsert_self (L : Lead) (now : Nat) (db : Db) :
    get_lead L.tg_id (upsert_lead L now db) = some L := by
  induction db with
  | nil => simp [get_lead, findRow, upsert_lead, List.find?]
  | cons r rs ih =>
      by_cases h : r.lead.tg_id = L.tg_id
      · simp [upsert_lead, h, get_lead, findRow, List.find?]
      · simpa [upsert_lead, h, get_lead, findRow, List.find?] using ih

theorem upsert_upsert (L : Lead) (now₁ now₂ : Nat) (db : Db) :
    upsert_lead L now₂ (upsert_lead L now₁ db) = upsert_lead L now₁ db := by
  induction db with
  | nil => simp [upsert_lead]
  | cons r rs ih =>
      by_cases h : r.lead.tg_id = L.tg_id
      · simp [upsert_lead, h]
      · simp [upsert_lead, h, ih]

theorem count_leads_upsert (L : Lead) (now : Nat) (db : Db) :
    count_leads (upsert_lead L now db) =
      count_leads db + (if get_lead L.tg_id db = none then 1 else 0) := by
  induction db with
  | nil => simp [count_leads, upsert_lead, get_lead, findRow]
  | cons r rs ih =>
      by_cases h : r.lead.tg_id = L.tg_id
      · simp [count_leads, upsert_lead, h, get_lead, findRow, List.find?]
      · simp only [count_leads, upsert_lead, if_neg h, get_lead, findRow,
          List.find?] at ih ⊢
        simp only [List.length_cons]
        rw [ih]
        have : (decide (r.lead.tg_id = L.tg_id)) = false := by simp [h]
        simp [this]
        omega

theorem findRow_upsert (L : Lead) (now : Nat) (db : Db) (row : StoredRow)
    (h : findRow L.tg_id db = some row) :
    findRow L.tg_id (upsert_lead L now db) = some ⟨L, row.created_at⟩ := by
  induction db with
  | nil => simp [findRow, List.find?] at h
  | cons r rs ih =>
      by_cases hr : r.lead.tg_id = L.tg_id
      · simp [findRow, List.find?, hr] at h
        subst h
        simp [upsert_lead, hr, findRow, List.find?]
      · simp only [findRow, List.find?] at h
        have hd : (decide (r.lead.tg_id = L.tg_id)) = false := by simp [hr]
        rw [hd] at h
        simp only [upsert_lead, if_neg hr, findRow, List.find?, hd]
        exact ih h

theorem mem_keys_upsert (L : Lead) (now : Nat) (db : Db) (x : Int) :
    x ∈ (upsert_lead L now db).map (fun r => r.lead.tg_id) ↔
      x ∈ db.map (fun r => r.lead.tg_id) ∨ x = L.tg_id := by
  induction db with
  | nil => simp [upsert_lead]
  | cons r rs ih =>
      by_cases h : r.lead.tg_id = L.tg_id
      · have hu : upsert_lead L now (r :: rs) = ⟨L, r.created_at⟩ :: rs := by
          simp [upsert_lead, h]
        rw [hu]
        simp only [List.map_cons, List.mem_cons, h]
        tauto
      · have hu : upsert_lead L now (r :: rs) = r :: upsert_lead L now rs := by
          simp [upsert_lead, h]
        rw [hu]
        simp only [List.map_cons, List.mem_cons, ih]
        tauto

theorem KeysNodup_upsert (L : Lead) (now : Nat) (db : Db)
    (hnd : KeysNodup db) : KeysNodup (upsert_lead L now db) := by
  induction db with
  | nil => simp [upsert_lead, KeysNodup]
  | cons r rs ih =>
      simp only [KeysNodup, List.map_cons, List.nodup_cons] at hnd
      by_cases h : r.lead.tg_id = L.tg_id
      · simp only [upsert_lead, if_pos h, KeysNodup, List.map_cons,
          List.nodup_cons]
        exact ⟨h ▸ hnd.1, hnd.2⟩
      · simp only [upsert_lead, if_neg h, KeysNodup, List.map_cons,
          List.nodup_cons]
        refine ⟨fun hmem => ?_, ih hnd.2⟩
        rcases (mem_keys_upsert L now rs r.lead.tg_id).mp hmem with h1 | h2
        · exact hnd.1 h1
        · exact h h2

theorem nodup_filter_length_le_one (db : Db) (hnd : KeysNodup db) (v : Int) :
    (db.filter (fun r => r.lead.tg_id = v)).length ≤ 1 := by
  induction db with
  | nil => simp
  | cons r rs ih =>
      simp only [KeysNodup, List.map_cons, List.nodup_cons] at hnd
      by_cases h : r.lead.tg_id = v
      · have hnil : rs.filter (fun r => r.lead.tg_id = v) = [] := by
          rw [List.filter_eq_nil_iff]
          intro a ha hav
          apply hnd.1
          rw [h, ← of_decide_eq_true hav]
          exact List.mem_map_of_mem (fun r => r.lead.tg_id) ha
        simp [List.filter, h, hnil]
      · have hd : (decide (r.lead.tg_id = v)) = false := by simp [h]
        simp only [List.filter, hd]
        exact ih hnd.2

/-! ## Lemmas about the conversation memory -/

theorem lastN_length_le (n : Nat) (l : List α) : (lastN n l).length ≤ n := by
  simp only [lastN, List.length_drop]
  omega

theorem lastN_suffix (n : Nat) (l : List α) : lastN n l <:+ l :=
  List.drop_suffix _ _

theorem lastN_of_length_le (n : Nat) (l : List α) (h : l.length ≤ n) :
    lastN n l = l := by
  simp [lastN, Nat.sub_eq_zero_of_le h]

theorem mem_add_self (mem : Mem) (uid : Int) (role text : String) :
    mem_add mem uid role text uid = lastN MEM_MAX (mem uid ++ [(role, text)]) := by
  have hu : mem_add mem uid role text uid =
      (if MEM_MAX < (mem uid ++ [(role, text)]).length then
        (mem uid ++ [(role, text)]).drop
          ((mem uid ++ [(role, text)]).length - MEM_MAX)
      else mem uid ++ [(role, text)]) := by
    unfold mem_add
    rw [if_pos rfl]
  rw [hu, lastN]
  by_cases h : MEM_MAX < (mem uid ++ [(role, text)]).length
  · rw [if_pos h]
  · rw [if_neg h, Nat.sub_eq_zero_of_le (Nat.le_of_not_lt h), List.drop_zero]

theorem mem_add_other (mem : Mem) (uid v : Int) (role text : String)
    (h : v ≠ uid) : mem_add mem uid role text v = mem v := by
  simp [mem_add, h]

theorem lastN_append_left (n : Nat) (l l₂ : List α) :
    lastN n (lastN n l ++ l₂) = lastN n (l ++ l₂) := by
  unfold lastN
  rw [List.drop_append_eq_append_drop, List.drop_append_eq_append_drop,
    List.drop_drop]
  have h1 : l.length - n + ((l.drop (l.length - n) ++ l₂).length - n) =
      (l ++ l₂).length - n := by
    simp only [List.length_append, List.length_drop]
    omega
  have h2 : (l.drop (l.length - n) ++ l₂).length - n -
      (l.drop (l.length - n)).length = (l ++ l₂).length - n - l.length := by
    simp only [List.length_append, List.length_drop]
    omega
  rw [h1, h2]

theorem runAppends_spec (ops : List (Int × String × String)) (mem : Mem)
    (uid : Int) (h : (mem uid).length ≤ MEM_MAX) :
    runAppends mem ops uid = lastN MEM_MAX (mem uid ++ userTurns ops uid) := by
  induction ops generalizing mem with
  | nil =>
      simp only [runAppends, List.foldl_nil, userTurns, List.filter_nil,
        List.map_nil, List.append_nil]
      exact (lastN_of_length_le _ _ h).symm
  | cons op ops ih =>
      have hstep : runAppends mem (op :: ops) =
          runAppends (mem_add mem op.1 op.2.1 op.2.2) ops := rfl
      by_cases hv : op.1 = uid
      · have hmem : mem_add mem op.1 op.2.1 op.2.2 uid =
            lastN MEM_MAX (mem uid ++ [op.2]) := by
          rw [hv] at *
          rw [mem_add_self]
        have hlen : (mem_add mem op.1 op.2.1 op.2.2 uid).length ≤ MEM_MAX := by
          rw [hmem]; exact lastN_length_le _ _
        have hturns : userTurns (op :: ops) uid = op.2 :: userTurns ops uid := by
          simp [userTurns, List.filter_cons, hv]
        rw [hstep, ih _ hlen, hmem, lastN_append_left, hturns]
        simp
      · have hmem : mem_add mem op.1 op.2.1 op.2.2 uid = mem uid :=
          mem_add_other _ _ _ _ _ (fun he => hv he.symm)
        have hlen : (mem_add mem op.1 op.2.1 op.2.2 uid).length ≤ MEM_MAX := by
          rw [hmem]; exact h
        have hturns : userTurns (op :: ops) uid = userTurns ops uid := by
          simp [userTurns, List.filter_cons, hv]
        rw [hstep, ih _ hlen, hmem, hturns]

/-! ## Lemmas about dispatch -/

theorem dispatch_start (env : Env) (o : GeminiOutcome) (now : Nat)
    (s : BotState) (uid : Int) (t : String) (h : isCommand "start" t = true) :
    processMessage env o now s ⟨uid, some t⟩ = start env s uid := by
  show dispatchText env o now s uid t = _
  unfold dispatchText
  rw [if_pos h]

theorem dispatch_state_scoped (env : Env) (o : GeminiOutcome) (now : Nat)
    (s : BotState) (uid : Int) (t : String) (st : FsmState)
    (hs : (s.sessions uid).state = some st) (hp : PlainText t) :
    processMessage env o now s ⟨uid, some t⟩ =
      stateHandler env o now s uid t st := by
  obtain ⟨hne, hstart, hb1, hb2, hb3, hb4, hb5⟩ := hp
  show dispatchText env o now s uid t = _
  unfold dispatchText
  rw [if_neg (by simp [hstart]), if_neg hb1, if_neg hb2, if_neg hb3,
    if_neg hb4, if_neg hb5]
  cases st with
  | name => rw [if_pos ⟨hs, hne⟩]; rfl
  | age_group => rw [if_neg (by simp [hs]), if_pos ⟨hs, hne⟩]; rfl
  | level => rw [if_neg (by simp [hs]), if_neg (by simp [hs]),
      if_pos ⟨hs, hne⟩]; rfl
  | goal => rw [if_neg (by simp [hs]), if_neg (by simp [hs]),
      if_neg (by simp [hs]), if_pos ⟨hs, hne⟩]; rfl
  | schedule => rw [if_neg (by simp [hs]), if_neg (by simp [hs]),
      if_neg (by simp [hs]), if_neg (by simp [hs]), if_pos ⟨hs, hne⟩]; rfl
  | contact => rw [if_neg (by simp [hs]), if_neg (by simp [hs]),
      if_neg (by simp [hs]), if_neg (by simp [hs]), if_neg (by simp [hs]),
      if_pos ⟨hs, hne⟩]; rfl
  | question => rw [if_neg (by simp [hs]), if_neg (by simp [hs]),
      if_neg (by simp [hs]), if_neg (by simp [hs]), if_neg (by simp [hs]),
      if_neg (by simp [hs]), if_pos ⟨hs, hne⟩]; rfl

theorem dispatch_btnTrial (env : Env) (o : GeminiOutcome) (now : Nat)
    (s : BotState) (uid : Int) :
    processMessage env o now s ⟨uid, some btnTrial⟩ = trial s uid btnTrial := by
  show dispatchText env o now s uid btnTrial = _
  unfold dispatchText
  rw [if_neg (by decide), if_pos rfl]

theorem dispatch_btnPickCourse (env : Env) (o : GeminiOutcome) (now : Nat)
    (s : BotState) (uid : Int) :
    processMessage env o now s ⟨uid, some btnPickCourse⟩ =
      pick_course s uid btnPickCourse := by
  show dispatchText env o now s uid btnPickCourse = _
  unfold dispatchText
  rw [if_neg (by decide), if_neg (by decide), if_pos rfl]

theorem dispatch_btnPricing (env : Env) (o : GeminiOutcome) (now : Nat)
    (s : BotState) (uid : Int) :
    processMessage env o now s ⟨uid, some btnPricing⟩ =
      pricing s uid btnPricing := by
  show dispatchText env o now s uid btnPricing = _
  unfold dispatchText
  rw [if_neg (by decide), if_neg (by decide), if_neg (by decide), if_pos rfl]

theorem dispatch_btnLevelTest (env : Env) (o : GeminiOutcome) (now : Nat)
    (s : BotState) (uid : Int) :
    processMessage env o now s ⟨uid, some btnLevelTest⟩ =
      level_test s uid btnLevelTest := by
  show dispatchText env o now s uid btnLevelTest = _
  unfold dispatchText
  rw [if_neg (by decide), if_neg (by decide), if_neg (by decide),
    if_neg (by decide), if_pos rfl]

theorem dispatch_btnAiMode (env : Env) (o : GeminiOutcome) (now : Nat)
    (s : BotState) (uid : Int) :
    processMessage env o now s ⟨uid, some btnAiMode⟩ =
      ai_mode s uid btnAiMode := by
  show dispatchText env o now s uid btnAiMode = _
  unfold dispatchText
  rw [if_neg (by decide), if_neg (by decide), if_neg (by decide),
    if_neg (by decide), if_neg (by decide), if_pos rfl]

theorem dispatch_stats_idle (env : Env) (o : GeminiOutcome) (now : Nat)
    (s : BotState) (uid : Int) (hs : (s.sessions uid).state = none) :
    processMessage env o now s ⟨uid, some "/stats"⟩ = stats env s uid := by
  show dispatchText env o now s uid "/stats" = _
  unfold dispatchText
  rw [if_neg (by decide), if_neg (by decide), if_neg (by decide),
    if_neg (by decide), if_neg (by decide), if_neg (by decide),
    if_neg (by simp [hs]), if_neg (by simp [hs]), if_neg (by simp [hs]),
    if_neg (by simp [hs]), if_neg (by simp [hs]), if_neg (by simp [hs]),
    if_neg (by simp [hs]), if_pos (by decide)]

theorem dispatch_reset_idle (env : Env) (o : GeminiOutcome) (now : Nat)
    (s : BotState) (uid : Int) (hs : (s.sessions uid).state = none) :
    processMessage env o now s ⟨uid, some "/reset_ai"⟩ = reset_ai env s uid := by
  show dispatchText env o now s uid "/reset_ai" = _
  unfold dispatchText
  rw [if_neg (by decide), if_neg (by decide), if_neg (by decide),
    if_neg (by decide), if_neg (by decide), if_neg (by decide),
    if_neg (by simp [hs]), if_neg (by simp [hs]), if_neg (by simp [hs]),
    if_neg (by simp [hs]), if_neg (by simp [hs]), if_neg (by simp [hs]),
    if_neg (by simp [hs]), if_neg (by decide), if_pos (by decide)]

theorem dispatch_fallback_idle (env : Env) (o : GeminiOutcome) (now : Nat)
    (s : BotState) (uid : Int) (t : String)
    (hs : (s.sessions uid).state = none) (hp : PlainText t)
    (h1 : isCommand "stats" t = false) (h2 : isCommand "reset_ai" t = false) :
    processMessage env o now s ⟨uid, some t⟩ = fallback env o s uid t := by
  obtain ⟨hne, hstart, hb1, hb2, hb3, hb4, hb5⟩ := hp
  show dispatchText env o now s uid t = _
  unfold dispatchText
  rw [if_neg (by simp [hstart]), if_neg hb1, if_neg hb2, if_neg hb3,
    if_neg hb4, if_neg hb5,
    if_neg (by simp [hs]), if_neg (by simp [hs]), if_neg (by simp [hs]),
    if_neg (by simp [hs]), if_neg (by simp [hs]), if_neg (by simp [hs]),
    if_neg (by simp [hs]), if_neg (by simp [h1]), if_neg (by simp [h2]),
    if_pos hne]


/-! ## Claim C1 — the six-step intake run -/

/-- C1 (amended): for every sequence of six messages with non-empty text
that is not a `/start` command nor a menu button, sent by one user whose
session is in the `name` state, the session advances through
`age_group`, `level`, `goal`, `schedule`, `contact` and back to idle, the
stored Lead's six fields equal the whitespace-stripped submitted texts in
order, and `count_leads` grows by 1 exactly when the identity had no
stored lead before the sequence.  (The original claim said the fields
equal the submitted texts exactly; the handlers call `.strip()` on each
text, so texts with surrounding whitespace are stored stripped.) -/
theorem intake_sequence_stores
    (env : Env) (o : GeminiOutcome) (now : Nat) (s : BotState) (uid : Int)
    (t₁ t₂ t₃ t₄ t₅ t₆ : String)
    (h₁ : PlainText t₁) (h₂ : PlainText t₂) (h₃ : PlainText t₃)
    (h₄ : PlainText t₄) (h₅ : PlainText t₅) (h₆ : PlainText t₆)
    (hs : (s.sessions uid).state = some FsmState.name) :
    let s₁ := step env o now s ⟨uid, some t₁⟩
    let s₂ := step env o now s₁ ⟨uid, some t₂⟩
    let s₃ := step env o now s₂ ⟨uid, some t₃⟩
    let s₄ := step env o now s₃ ⟨uid, some t₄⟩
    let s₅ := step env o now s₄ ⟨uid, some t₅⟩
    let s₆ := step env o now s₅ ⟨uid, some t₆⟩
    ((s₁.sessions uid).state = some FsmState.age_group ∧
     (s₂.sessions uid).state = some FsmState.level ∧
     (s₃.sessions uid).state = some FsmState.goal ∧
     (s₄.sessions uid).state = some FsmState.schedule ∧
     (s₅.sessions uid).state = some FsmState.contact ∧
     (s₆.sessions uid).state = none) ∧
    get_lead uid s₆.db =
      some ⟨uid, strip t₁, strip t₂, strip t₃, strip t₄, strip t₅, strip t₆⟩ ∧
    count_leads s₆.db =
      count_leads s.db + (if get_lead uid s.db = none then 1 else 0) := by
  intro s₁ s₂ s₃ s₄ s₅ s₆
  have E1 : s₁ = (intake_name s uid t₁).1 := by
    show (processMessage env o now s ⟨uid, some t₁⟩).1 = _
    rw [dispatch_state_scoped env o now s uid t₁ FsmState.name hs h₁]
    rfl
  have S1 : s₁.sessions uid =
      ⟨some FsmState.age_group,
        { (s.sessions uid).data with name := some (strip t₁) }⟩ := by
    rw [E1]; simp [intake_name, setSession]
  have D1 : s₁.db = s.db := by rw [E1]; rfl
  have E2 : s₂ = (intake_age s₁ uid t₂).1 := by
    show (processMessage env o now s₁ ⟨uid, some t₂⟩).1 = _
    rw [dispatch_state_scoped env o now s₁ uid t₂ FsmState.age_group
      (by rw [S1]) h₂]
    rfl
  have S2 : s₂.sessions uid =
      ⟨some FsmState.level,
        { (s.sessions uid).data with
          name := some (strip t₁)
          age_group := some (strip t₂) }⟩ := by
    rw [E2]; simp [intake_age, setSession, S1]
  have D2 : s₂.db = s₁.db := by rw [E2]; rfl
  have E3 : s₃ = (intake_level s₂ uid t₃).1 := by
    show (processMessage env o now s₂ ⟨uid, some t₃⟩).1 = _
    rw [dispatch_state_scoped env o now s₂ uid t₃ FsmState.level
      (by rw [S2]) h₃]
    rfl
  have S3 : s₃.sessions uid =
      ⟨some FsmState.goal,
        { (s.sessions uid).data with
          name := some (strip t₁)
          age_group := some (strip t₂)
          level := some (strip t₃) }⟩ := by
    rw [E3]; simp [intake_level, setSession, S2]
  have D3 : s₃.db = s₂.db := by rw [E3]; rfl
  have E4 : s₄ = (intake_goal env s₃ uid t₄).1 := by
    show (processMessage env o now s₃ ⟨uid, some t₄⟩).1 = _
    rw [dispatch_state_scoped env o now s₃ uid t₄ FsmState.goal
      (by rw [S3]) h₄]
    rfl
  have S4 : s₄.sessions uid =
      ⟨some FsmState.schedule,
        { (s.sessions uid).data with
          name := some (strip t₁)
          age_group := some (strip t₂)
          level := some (strip t₃)
          goal := some (strip t₄) }⟩ := by
    rw [E4]; simp [intake_goal, setSession, S3]
  have D4 : s₄.db = s₃.db := by rw [E4]; rfl
  have E5 : s₅ = (intake_schedule s₄ uid t₅).1 := by
    show (processMessage env o now s₄ ⟨uid, some t₅⟩).1 = _
    rw [dispatch_state_scoped env o now s₄ uid t₅ FsmState.schedule
      (by rw [S4]) h₅]
    rfl
  have S5 : s₅.sessions uid =
      ⟨some FsmState.contact,
        { name := some (strip t₁)
          age_group := some (strip t₂)
          level := some (strip t₃)
          goal := some (strip t₄)
          schedule := some (strip t₅) }⟩ := by
    rw [E5]; simp [intake_schedule, setSession, S4]
  have D5 : s₅.db = s₄.db := by rw [E5]; rfl
  have E6 : s₆ = (intake_contact env now s₅ uid t₆).1 := by
    show (processMessage env o now s₅ ⟨uid, some t₆⟩).1 = _
    rw [dispatch_state_scoped env o now s₅ uid t₆ FsmState.contact
      (by rw [S5]) h₆]
    rfl
  have S6 : s₆.sessions uid = {} := by
    rw [E6]; simp [intake_contact, setSession]
  have D6 : s₆.db =
      upsert_lead ⟨uid, strip t₁, strip t₂, strip t₃, strip t₄, strip t₅,
        strip t₆⟩ now s.db := by
    rw [E6]
    show upsert_lead _ now s₅.db = _
    rw [S5, D5, D4, D3, D2, D1]
    rfl
  refine ⟨⟨by rw [S1], by rw [S2], by rw [S3], by rw [S4], by rw [S5],
    by rw [S6]⟩, ?_, ?_⟩
  · rw [D6]
    exact get_lead_upsert_self ⟨uid, strip t₁, strip t₂, strip t₃,
      strip t₄, strip t₅, strip t₆⟩ now s.db
  · rw [D6]
    exact count_leads_upsert ⟨uid, strip t₁, strip t₂, strip t₃,
      strip t₄, strip t₅, strip t₆⟩ now s.db

/-- C1 counterexample: the six submitted texts are non-empty and the
session advances through all six intake states, yet the stored name is
"Anna", not the submitted text " Anna " — the fields do not equal the
submitted texts exactly. -/
theorem intake_sequence_counterexample :
    let s : BotState := stateAt 7 (some FsmState.name) {}
    let s₁ := step envA errO 5 s ⟨7, some " Anna "⟩
    let s₂ := step envA errO 5 s₁ ⟨7, some "Взрослый"⟩
    let s₃ := step envA errO 5 s₂ ⟨7, some "B1"⟩
    let s₄ := step envA errO 5 s₃ ⟨7, some "IELTS"⟩
    let s₅ := step envA errO 5 s₄ ⟨7, some "Вт 19:00"⟩
    let s₆ := step envA errO 5 s₅ ⟨7, some "@anna"⟩
    (" Anna " ≠ "" ∧
     (s₁.sessions 7).state = some FsmState.age_group ∧
     (s₂.sessions 7).state = some FsmState.level ∧
     (s₃.sessions 7).state = some FsmState.goal ∧
     (s₄.sessions 7).state = some FsmState.schedule ∧
     (s₅.sessions 7).state = some FsmState.contact ∧
     (s₆.sessions 7).state = none) ∧
    (get_lead 7 s₆.db).map Lead.name = some "Anna" ∧
    some "Anna" ≠ some " Anna " := by decide

/-- Witness for C1: a concrete six-message run through the intake form. -/
theorem intake_sequence_stores_witness :
    (PlainText "Anna" ∧ PlainText "Взрослый" ∧ PlainText "B1" ∧
     PlainText "IELTS" ∧ PlainText "Вт 19:00" ∧ PlainText "@anna") ∧
    ((stateAt 7 (some FsmState.name) {}).sessions 7).state =
      some FsmState.name ∧
    (let s : BotState := stateAt 7 (some FsmState.name) {}
     let s₁ := step envA errO 5 s ⟨7, some "Anna"⟩
     let s₂ := step envA errO 5 s₁ ⟨7, some "Взрослый"⟩
     let s₃ := step envA errO 5 s₂ ⟨7, some "B1"⟩
     let s₄ := step envA errO 5 s₃ ⟨7, some "IELTS"⟩
     let s₅ := step envA errO 5 s₄ ⟨7, some "Вт 19:00"⟩
     let s₆ := step envA errO 5 s₅ ⟨7, some "@anna"⟩
     ((s₁.sessions 7).state = some FsmState.age_group ∧
      (s₂.sessions 7).state = some FsmState.level ∧
      (s₃.sessions 7).state = some FsmState.goal ∧
      (s₄.sessions 7).state = some FsmState.schedule ∧
      (s₅.sessions 7).state = some FsmState.contact ∧
      (s₆.sessions 7).state = none) ∧
     get_lead 7 s₆.db = some ⟨7, "Anna", "Взрослый", "B1", "IELTS",
       "Вт 19:00", "@anna"⟩ ∧
     count_leads s₆.db = count_leads s.db +
       (if get_lead 7 s.db = none then 1 else 0)) :=
  ⟨⟨by decide, by decide, by decide, by decide, by decide, by decide⟩,
    by decide,
    intake_sequence_stores envA errO 5 (stateAt 7 (some FsmState.name) {}) 7
      "Anna" "Взрослый" "B1" "IELTS" "Вт 19:00" "@anna"
      (by decide) (by decide) (by decide) (by decide) (by decide) (by decide)
      (by decide)⟩



/-! ## Claims C2, C3 — the lead store -/

/-- C2: upsert is idempotent.  For every lead `L`, after calling
`upsert_lead L` twice in a row (with arbitrary call times), `get_lead
L.tg_id` returns `L`, the second call leaves the table unchanged, and the
row count after the first call equals the row count after the second. -/
theorem upsert_idempotent (L : Lead) (now₁ now₂ : Nat) (db : Db) :
    get_lead L.tg_id (upsert_lead L now₂ (upsert_lead L now₁ db)) = some L ∧
    upsert_lead L now₂ (upsert_lead L now₁ db) = upsert_lead L now₁ db ∧
    count_leads (upsert_lead L now₂ (upsert_lead L now₁ db)) =
      count_leads (upsert_lead L now₁ db) := by
  refine ⟨?_, upsert_upsert L now₁ now₂ db, ?_⟩
  · rw [upsert_upsert]
    exact get_lead_upsert_self L now₁ db
  · rw [upsert_upsert]

/-- C3: under the primary-key invariant the store holds at most one row
per identity; upserting a lead whose identity already has a row keeps the
invariant and replaces all six collected fields while the row stays under
the same identity with its original `created_at`. -/
theorem upsert_replaces_fields_keeps_identity
    (L : Lead) (now : Nat) (db : Db) (row : StoredRow)
    (hnd : KeysNodup db) (hrow : findRow L.tg_id db = some row) :
    (∀ v : Int, (db.filter (fun r => r.lead.tg_id = v)).length ≤ 1) ∧
    KeysNodup (upsert_lead L now db) ∧
    findRow L.tg_id (upsert_lead L now db) = some ⟨L, row.created_at⟩ :=
  ⟨nodup_filter_length_le_one db hnd, KeysNodup_upsert L now db hnd,
    findRow_upsert L now db row hrow⟩

/-- Witness for C3: a one-row table whose lead is fully replaced while
`created_at` stays 11. -/
theorem upsert_replaces_fields_witness :
    (KeysNodup [⟨⟨5, "a", "b", "c", "d", "e", "f"⟩, 11⟩] ∧
     findRow 5 [⟨⟨5, "a", "b", "c", "d", "e", "f"⟩, 11⟩] =
       some ⟨⟨5, "a", "b", "c", "d", "e", "f"⟩, 11⟩) ∧
    (∀ v : Int,
      (([⟨⟨5, "a", "b", "c", "d", "e", "f"⟩, 11⟩] : Db).filter
        (fun r => r.lead.tg_id = v)).length ≤ 1) ∧
    KeysNodup (upsert_lead ⟨5, "n", "o", "p", "q", "r", "s"⟩ 99
      [⟨⟨5, "a", "b", "c", "d", "e", "f"⟩, 11⟩]) ∧
    findRow 5 (upsert_lead ⟨5, "n", "o", "p", "q", "r", "s"⟩ 99
      [⟨⟨5, "a", "b", "c", "d", "e", "f"⟩, 11⟩]) =
      some ⟨⟨5, "n", "o", "p", "q", "r", "s"⟩, 11⟩ :=
  ⟨⟨by decide, by decide⟩,
    upsert_replaces_fields_keeps_identity ⟨5, "n", "o", "p", "q", "r", "s"⟩
      99 [⟨⟨5, "a", "b", "c", "d", "e", "f"⟩, 11⟩]
      ⟨⟨5, "a", "b", "c", "d", "e", "f"⟩, 11⟩ (by decide) (by decide)⟩

/-! ## Claim C7 — the Gemini wrapper -/

/-- C7: `ask_gemini` never raises (it is a total function of the
external-call outcome): with no credential configured it returns the
fixed "not configured" string without attempting the call; when the
external call raises it returns the fixed apologetic string; and in every
case its reply is one of the two fixed strings or the stripped text of a
successful response. -/
theorem ask_gemini_never_raises :
    (∀ o : GeminiOutcome, ask_gemini false o = (geminiNotConfigured, false)) ∧
    ask_gemini true (Except.error ()) = (geminiApology, true) ∧
    (∀ (configured : Bool) (o : GeminiOutcome),
      (ask_gemini configured o).1 = geminiNotConfigured ∨
      (ask_gemini configured o).1 = geminiApology ∨
      ∃ t, o = Except.ok t ∧ (ask_gemini configured o).1 = strip (t.getD "")) := by
  refine ⟨fun o => rfl, rfl, fun configured o => ?_⟩
  cases configured
  · exact Or.inl rfl
  · cases o with
    | error e => exact Or.inr (Or.inl rfl)
    | ok t => exact Or.inr (Or.inr ⟨t, rfl, rfl⟩)

/-! ## Claim C8 — the conversation memory -/

/-- C8: after any sequence of `mem_add` appends starting from the empty
memory, each user's memory holds at most `MEM_MAX = 10` turns, is a
suffix of that user's submitted turns (so only the oldest turns are
discarded and the order of the rest is preserved), and equals exactly the
last 10 submitted turns. -/
theorem memory_bounded_and_suffix (ops : List (Int × String × String))
    (uid : Int) :
    (runAppends (fun _ => []) ops uid).length ≤ MEM_MAX ∧
    runAppends (fun _ => []) ops uid <:+ userTurns ops uid ∧
    runAppends (fun _ => []) ops uid = lastN MEM_MAX (userTurns ops uid) := by
  have h : runAppends (fun _ => []) ops uid =
      lastN MEM_MAX ((fun _ => ([] : List (String × String))) uid ++
        userTurns ops uid) :=
    runAppends_spec ops (fun _ => []) uid (by simp)
  simp only [List.nil_append] at h
  exact ⟨h ▸ lastN_length_le MEM_MAX (userTurns ops uid),
    h ▸ lastN_suffix MEM_MAX (userTurns ops uid), h⟩


/-! ## Claim C4 — dispatch priority -/

/-- C4 (amended): dispatch follows aiogram registration order, not the
command-first priority: the `/start` command is matched first, then the
five exact-text menu buttons (in any session state), then the
state-scoped handlers (the six intake states and the AI-question state),
and only then the `/stats` and `/reset_ai` commands, then the fallback.
In particular a `/stats` or `/reset_ai` sent while a state is active is
consumed by that state's handler, not handled as a command. -/
theorem dispatch_follows_registration_order
    (env : Env) (o : GeminiOutcome) (now : Nat) (s : BotState) (uid : Int)
    (t : String) (st : FsmState) :
    (isCommand "start" t = true →
      processMessage env o now s ⟨uid, some t⟩ = start env s uid) ∧
    processMessage env o now s ⟨uid, some btnTrial⟩ = trial s uid btnTrial ∧
    processMessage env o now s ⟨uid, some btnPickCourse⟩ =
      pick_course s uid btnPickCourse ∧
    processMessage env o now s ⟨uid, some btnPricing⟩ =
      pricing s uid btnPricing ∧
    processMessage env o now s ⟨uid, some btnLevelTest⟩ =
      level_test s uid btnLevelTest ∧
    processMessage env o now s ⟨uid, some btnAiMode⟩ = ai_mode s uid btnAiMode ∧
    ((s.sessions uid).state = some st → PlainText t →
      processMessage env o now s ⟨uid, some t⟩ =
        stateHandler env o now s uid t st) ∧
    ((s.sessions uid).state = some st →
      processMessage env o now s ⟨uid, some "/stats"⟩ =
        stateHandler env o now s uid "/stats" st) ∧
    ((s.sessions uid).state = some st →
      processMessage env o now s ⟨uid, some "/reset_ai"⟩ =
        stateHandler env o now s uid "/reset_ai" st) ∧
    ((s.sessions uid).state = none →
      processMessage env o now s ⟨uid, some "/stats"⟩ = stats env s uid) ∧
    ((s.sessions uid).state = none →
      processMessage env o now s ⟨uid, some "/reset_ai"⟩ = reset_ai env s uid) ∧
    ((s.sessions uid).state = none → PlainText t →
      isCommand "stats" t = false → isCommand "reset_ai" t = false →
      processMessage env o now s ⟨uid, some t⟩ = fallback env o s uid t) :=
  ⟨dispatch_start env o now s uid t,
   dispatch_btnTrial env o now s uid,
   dispatch_btnPickCourse env o now s uid,
   dispatch_btnPricing env o now s uid,
   dispatch_btnLevelTest env o now s uid,
   dispatch_btnAiMode env o now s uid,
   fun hs hp => dispatch_state_scoped env o now s uid t st hs hp,
   fun hs => dispatch_state_scoped env o now s uid "/stats" st hs (by decide),
   fun hs =>
     dispatch_state_scoped env o now s uid "/reset_ai" st hs (by decide),
   fun hs => dispatch_stats_idle env o now s uid hs,
   fun hs => dispatch_reset_idle env o now s uid hs,
   fun hs hp h1 h2 => dispatch_fallback_idle env o now s uid t hs hp h1 h2⟩

/-- C4 counterexample: the admin, mid-intake at the `name` step, sends
`/stats`; the message is consumed by `intake_name` (stored as the name,
state advances, intake prompt replied) instead of being handled as a
command. -/
theorem dispatch_priority_counterexample :
    let s : BotState := stateAt 1 (some FsmState.name) {}
    let r := processMessage envA errO 5 s ⟨1, some "/stats"⟩
    ((1 : Int) = envA.ADMIN_ID ∧
     (r.1.sessions 1).state = some FsmState.age_group ∧
     (r.1.sessions 1).data.name = some "/stats" ∧
     r.2 = [(1, "Кто будет заниматься?")] ∧
     r.2 ≠ [(1, statsReply (count_leads s.db))]) := by decide

/-- Witness for C4: `/stats` mid-intake goes to the intake handler, while
`/stats` with no active state goes to the `stats` handler. -/
theorem dispatch_order_witness :
    ((stateAt 2 (some FsmState.name) {}).sessions 2).state =
      some FsmState.name ∧
    processMessage envA errO 5 (stateAt 2 (some FsmState.name) {})
      ⟨2, some "/stats"⟩ =
      stateHandler envA errO 5 (stateAt 2 (some FsmState.name) {}) 2 "/stats"
        FsmState.name ∧
    ((stateAt 2 none {}).sessions 2).state = none ∧
    processMessage envA errO 5 (stateAt 2 none {}) ⟨2, some "/stats"⟩ =
      stats envA (stateAt 2 none {}) 2 :=
  ⟨by decide,
   (dispatch_follows_registration_order envA errO 5
     (stateAt 2 (some FsmState.name) {}) 2 "/stats"
     FsmState.name).2.2.2.2.2.2.2.1 (by decide),
   by decide,
   (dispatch_follows_registration_order envA errO 5 (stateAt 2 none {}) 2
     "/stats" FsmState.name).2.2.2.2.2.2.2.2.2.1 (by decide)⟩

/-! ## Claim C5 — empty text during intake -/

/-- C5 (amended): during any intake step, a message with no text or with
empty text matches no handler, so the whole bot state (session state and
accumulator included) is unchanged and no reply is produced.  (The
original claim also covered whitespace-only text; a whitespace-only text
is non-empty, passes the `F.text` filter, advances the state and writes
the stripped — empty — value, see the counterexample.) -/
theorem empty_text_no_advance
    (env : Env) (o : GeminiOutcome) (now : Nat) (s : BotState) (uid : Int)
    (st : FsmState)
    (hst : st = FsmState.name ∨ st = FsmState.age_group ∨
      st = FsmState.level ∨ st = FsmState.goal ∨ st = FsmState.schedule ∨
      st = FsmState.contact)
    (hs : (s.sessions uid).state = some st) :
    processMessage env o now s ⟨uid, none⟩ = (s, []) ∧
    processMessage env o now s ⟨uid, some ""⟩ = (s, []) := by
  constructor
  · rfl
  · show dispatchText env o now s uid "" = (s, [])
    unfold dispatchText
    rw [if_neg (by decide), if_neg (by decide), if_neg (by decide),
      if_neg (by decide), if_neg (by decide), if_neg (by decide),
      if_neg (fun h => h.2 rfl), if_neg (fun h => h.2 rfl),
      if_neg (fun h => h.2 rfl), if_neg (fun h => h.2 rfl),
      if_neg (fun h => h.2 rfl), if_neg (fun h => h.2 rfl),
      if_neg (fun h => h.2 rfl), if_neg (by decide), if_neg (by decide),
      if_neg (fun h => h rfl)]

/-- C5 counterexample: a whitespace-only text " " is non-empty, so the
`name` step accepts it: the state advances to `age_group` (it does not
stay at `name`) and the empty stripped value is written into the
accumulator. -/
theorem whitespace_text_counterexample :
    let s : BotState := stateAt 7 (some FsmState.name) {}
    let r := processMessage envA errO 5 s ⟨7, some " "⟩
    (" " ≠ "" ∧
     (r.1.sessions 7).state = some FsmState.age_group ∧
     (r.1.sessions 7).state ≠ (s.sessions 7).state ∧
     (r.1.sessions 7).data.name = some "") := by decide

/-- Witness for C5: a user at the `goal` step receives a textless message
and an empty-text message; nothing changes. -/
theorem empty_text_no_advance_witness :
    (FsmState.goal = FsmState.name ∨ FsmState.goal = FsmState.age_group ∨
     FsmState.goal = FsmState.level ∨ FsmState.goal = FsmState.goal ∨
     FsmState.goal = FsmState.schedule ∨ FsmState.goal = FsmState.contact) ∧
    ((stateAt 7 (some FsmState.goal) {}).sessions 7).state =
      some FsmState.goal ∧
    processMessage envA errO 5 (stateAt 7 (some FsmState.goal) {}) ⟨7, none⟩ =
      (stateAt 7 (some FsmState.goal) {}, []) ∧
    processMessage envA errO 5 (stateAt 7 (some FsmState.goal) {})
      ⟨7, some ""⟩ = (stateAt 7 (some FsmState.goal) {}, []) :=
  ⟨by decide, by decide,
   (empty_text_no_advance envA errO 5 (stateAt 7 (some FsmState.goal) {}) 7
     FsmState.goal (by decide) (by decide)).1,
   (empty_text_no_advance envA errO 5 (stateAt 7 (some FsmState.goal) {}) 7
     FsmState.goal (by decide) (by decide)).2⟩

/-! ## Claim C6 — admin gating -/

/-- C6 (amended): a non-admin caller with no active session state who
sends `/stats` or `/reset_ai` gets no reply and causes no state change at
all (lead store, sessions and memory identical).  (The original claim
held for every non-admin caller; a caller with an active intake or
AI-question state has the command consumed by the state-scoped handler,
which replies and mutates state, see the counterexample.) -/
theorem nonadmin_command_noop
    (env : Env) (o : GeminiOutcome) (now : Nat) (s : BotState) (uid : Int)
    (hadmin : uid ≠ env.ADMIN_ID) (hs : (s.sessions uid).state = none) :
    processMessage env o now s ⟨uid, some "/stats"⟩ = (s, []) ∧
    processMessage env o now s ⟨uid, some "/reset_ai"⟩ = (s, []) := by
  constructor
  · rw [dispatch_stats_idle env o now s uid hs]
    unfold stats
    rw [if_pos hadmin]
  · rw [dispatch_reset_idle env o now s uid hs]
    unfold reset_ai
    rw [if_pos hadmin]

/-- C6 counterexample: a non-admin (identity 2, admin is 1) mid-intake at
the `name` step sends `/stats`: a reply is produced and the session state
changes — the message was consumed by the intake handler. -/
theorem nonadmin_command_counterexample :
    let s : BotState := stateAt 2 (some FsmState.name) {}
    let r := processMessage envA errO 5 s ⟨2, some "/stats"⟩
    ((2 : Int) ≠ envA.ADMIN_ID ∧ r.2 ≠ [] ∧
     (r.1.sessions 2).state ≠ (s.sessions 2).state) := by decide

/-- Witness for C6: a non-admin idle caller sends both admin commands and
nothing at all happens. -/
theorem nonadmin_command_noop_witness :
    ((2 : Int) ≠ envA.ADMIN_ID ∧
     ((stateAt 2 none {}).sessions 2).state = none) ∧
    processMessage envA errO 5 (stateAt 2 none {}) ⟨2, some "/stats"⟩ =
      (stateAt 2 none {}, []) ∧
    processMessage envA errO 5 (stateAt 2 none {}) ⟨2, some "/reset_ai"⟩ =
      (stateAt 2 none {}, []) :=
  ⟨⟨by decide, by decide⟩,
   (nonadmin_command_noop envA errO 5 (stateAt 2 none {}) 2 (by decide)
     (by decide)).1,
   (nonadmin_command_noop envA errO 5 (stateAt 2 none {}) 2 (by decide)
     (by decide)).2⟩

/-! ## Claim C10 — the admin memory reset -/

/-- C10 (amended): when the admin has no active session state, an admin
`/reset_ai` clears the conversation memory of every identity (the whole
`MEM` map, not only the caller's entry) and confirms.  (The original
claim held for any admin message; an admin with an active intake or
AI-question state has `/reset_ai` consumed by the state-scoped handler
and the memory survives, see the counterexample.) -/
theorem reset_ai_clears_all_memory
    (env : Env) (o : GeminiOutcome) (now : Nat) (s : BotState)
    (hs : (s.sessions env.ADMIN_ID).state = none) :
    (∀ v, (processMessage env o now s
        ⟨env.ADMIN_ID, some "/reset_ai"⟩).1.mem v = []) ∧
    (processMessage env o now s ⟨env.ADMIN_ID, some "/reset_ai"⟩).2 =
      [(env.ADMIN_ID, resetReply)] := by
  rw [dispatch_reset_idle env o now s env.ADMIN_ID hs]
  unfold reset_ai
  rw [if_neg (fun h => h rfl)]
  exact ⟨fun v => rfl, rfl⟩

/-- C10 counterexample: the admin is mid-intake at the `name` step; their
`/reset_ai` is consumed by the intake handler and user 3's remembered
turn survives — the memory map is not empty afterwards. -/
theorem reset_ai_counterexample :
    let r := processMessage envA errO 5 memSAdminBusy ⟨1, some "/reset_ai"⟩
    ((1 : Int) = envA.ADMIN_ID ∧ memSAdminBusy.mem 3 ≠ [] ∧
     r.1.mem 3 = [("user", "hi")] ∧ r.1.mem 3 ≠ []) := by decide

/-- Witness for C10: an idle admin resets and every identity's memory —
including user 3's previously non-empty one — is empty afterwards. -/
theorem reset_ai_clears_all_memory_witness :
    ((memS.sessions envA.ADMIN_ID).state = none ∧ memS.mem 3 ≠ []) ∧
    (∀ v, (processMessage envA errO 5 memS
        ⟨envA.ADMIN_ID, some "/reset_ai"⟩).1.mem v = []) ∧
    (processMessage envA errO 5 memS ⟨envA.ADMIN_ID, some "/reset_ai"⟩).2 =
      [(envA.ADMIN_ID, resetReply)] :=
  ⟨⟨by decide, by decide⟩,
   (reset_ai_clears_all_memory envA errO 5 memS (by decide)).1,
   (reset_ai_clears_all_memory envA errO 5 memS (by decide)).2⟩

/-! ## Claim C9 — entering the form via the course-pick button -/

/-- C9 (amended): the course-pick menu button sets the session directly
to the `goal` state (skipping the `name`, `age_group` and `level` steps)
without touching the accumulator; when the accumulator holds no name,
age-group or level value (e.g. a fresh session), a user who then
completes goal, schedule and contact gets a Lead stored whose `name`,
`age_group` and `level` fields are all the empty string.  (The original
claim had no accumulator condition; `set_state` keeps previously
collected data, so stale values from an interrupted intake are stored
instead of empty strings, see the counterexample.) -/
theorem pick_course_skips_to_goal
    (env : Env) (o : GeminiOutcome) (now : Nat) (s : BotState) (uid : Int)
    (t₄ t₅ t₆ : String)
    (h₄ : PlainText t₄) (h₅ : PlainText t₅) (h₆ : PlainText t₆)
    (hname : (s.sessions uid).data.name = none)
    (hage : (s.sessions uid).data.age_group = none)
    (hlevel : (s.sessions uid).data.level = none) :
    let s₁ := step env o now s ⟨uid, some btnPickCourse⟩
    let s₂ := step env o now s₁ ⟨uid, some t₄⟩
    let s₃ := step env o now s₂ ⟨uid, some t₅⟩
    let s₄ := step env o now s₃ ⟨uid, some t₆⟩
    ((s₁.sessions uid).state = some FsmState.goal ∧
     (s₂.sessions uid).state = some FsmState.schedule ∧
     (s₃.sessions uid).state = some FsmState.contact ∧
     (s₄.sessions uid).state = none) ∧
    get_lead uid s₄.db =
      some ⟨uid, "", "", "", strip t₄, strip t₅, strip t₆⟩ := by
  intro s₁ s₂ s₃ s₄
  have E1 : s₁ = (pick_course s uid btnPickCourse).1 := by
    show (processMessage env o now s ⟨uid, some btnPickCourse⟩).1 = _
    rw [dispatch_btnPickCourse env o now s uid]
  have S1 : s₁.sessions uid = ⟨some FsmState.goal, (s.sessions uid).data⟩ := by
    rw [E1]; simp [pick_course, setSession]
  have D1 : s₁.db = s.db := by rw [E1]; rfl
  have E2 : s₂ = (intake_goal env s₁ uid t₄).1 := by
    show (processMessage env o now s₁ ⟨uid, some t₄⟩).1 = _
    rw [dispatch_state_scoped env o now s₁ uid t₄ FsmState.goal
      (by rw [S1]) h₄]
    rfl
  have S2 : s₂.sessions uid =
      ⟨some FsmState.schedule,
        { (s.sessions uid).data with goal := some (strip t₄) }⟩ := by
    rw [E2]; simp [intake_goal, setSession, S1]
  have D2 : s₂.db = s₁.db := by rw [E2]; rfl
  have E3 : s₃ = (intake_schedule s₂ uid t₅).1 := by
    show (processMessage env o now s₂ ⟨uid, some t₅⟩).1 = _
    rw [dispatch_state_scoped env o now s₂ uid t₅ FsmState.schedule
      (by rw [S2]) h₅]
    rfl
  have S3 : s₃.sessions uid =
      ⟨some FsmState.contact,
        { (s.sessions uid).data with
          goal := some (strip t₄)
          schedule := some (strip t₅) }⟩ := by
    rw [E3]; simp [intake_schedule, setSession, S2]
  have D3 : s₃.db = s₂.db := by rw [E3]; rfl
  have E4 : s₄ = (intake_contact env now s₃ uid t₆).1 := by
    show (processMessage env o now s₃ ⟨uid, some t₆⟩).1 = _
    rw [dispatch_state_scoped env o now s₃ uid t₆ FsmState.contact
      (by rw [S3]) h₆]
    rfl
  have S4 : s₄.sessions uid = {} := by
    rw [E4]; simp [intake_contact, setSession]
  have D4 : s₄.db =
      upsert_lead ⟨uid, "", "", "", strip t₄, strip t₅, strip t₆⟩ now s.db := by
    rw [E4]
    show upsert_lead _ now s₃.db = _
    rw [S3, D3, D2, D1]
    simp [hname, hage, hlevel]
  refine ⟨⟨by rw [S1], by rw [S2], by rw [S3], by rw [S4]⟩, ?_⟩
  rw [D4]
  exact get_lead_upsert_self ⟨uid, "", "", "", strip t₄, strip t₅, strip t₆⟩
    now s.db

/-- C9 counterexample: a user who already answered the `name` step (so
the accumulator holds "Anna") presses the course-pick button and then
completes goal, schedule and contact; the stored Lead's name is "Anna",
not the empty string. -/
theorem pick_course_counterexample :
    let s : BotState :=
      stateAt 7 (some FsmState.age_group) ⟨some "Anna", none, none, none, none⟩
    let s₁ := step envA errO 5 s ⟨7, some btnPickCourse⟩
    let s₂ := step envA errO 5 s₁ ⟨7, some "IELTS"⟩
    let s₃ := step envA errO 5 s₂ ⟨7, some "Вт 19:00"⟩
    let s₄ := step envA errO 5 s₃ ⟨7, some "@anna"⟩
    ((s₁.sessions 7).state = some FsmState.goal ∧
     (s₄.sessions 7).state = none ∧
     (get_lead 7 s₄.db).map Lead.name = some "Anna" ∧
     some "Anna" ≠ some "") := by decide

/-- Witness for C9: a fresh user enters via the course-pick button and
completes the three remaining steps; the first three Lead fields are
empty. -/
theorem pick_course_skips_to_goal_witness :
    (PlainText "IELTS" ∧ PlainText "Вт 19:00" ∧ PlainText "@anna") ∧
    (((stateAt 7 none {}).sessions 7).data.name = none ∧
     ((stateAt 7 none {}).sessions 7).data.age_group = none ∧
     ((stateAt 7 none {}).sessions 7).data.level = none) ∧
    (let s : BotState := stateAt 7 none {}
     let s₁ := step envA errO 5 s ⟨7, some btnPickCourse⟩
     let s₂ := step envA errO 5 s₁ ⟨7, some "IELTS"⟩
     let s₃ := step envA errO 5 s₂ ⟨7, some "Вт 19:00"⟩
     let s₄ := step envA errO 5 s₃ ⟨7, some "@anna"⟩
     ((s₁.sessions 7).state = some FsmState.goal ∧
      (s₂.sessions 7).state = some FsmState.schedule ∧
      (s₃.sessions 7).state = some FsmState.contact ∧
      (s₄.sessions 7).state = none) ∧
     get_lead 7 s₄.db = some ⟨7, "", "", "", "IELTS", "Вт 19:00", "@anna"⟩) :=
  ⟨⟨by decide, by decide, by decide⟩, ⟨by decide, by decide, by decide⟩,
   pick_course_skips_to_goal envA errO 5 (stateAt 7 none {}) 7
     "IELTS" "Вт 19:00" "@anna" (by decide) (by decide) (by decide)
     (by decide) (by decide) (by decide)⟩

end Robolabs
